import Mathlib

/-!
Verification of the audio capture/recording core (the `AudioRecordingService`
class): source acquisition, mixer graph construction, the recording session
state machine (start/pause/resume/stop), duration accounting, loudness
reduction, and resource cleanup.

The embedding mirrors the service field-by-field.  Platform effects
(stream/track allocation, `track.stop()`, `AudioNode.disconnect()`, recorder
creation/destruction, animation-frame scheduling) are recorded in an explicit
event trace so that resource-lifecycle properties can be stated.  Machine
time (`Date.now()`) is modelled as an integer parameter threaded into each
operation; platform outcomes (getUserMedia, getDesktopStream, encoder
construction) are inputs of `startRecording` through a `StartEnv` record.
-/

/-- Which physical inputs are active for a session (the `AudioSource` union). -/
inductive AudioSource
  | microphone
  | system
  | both
  deriving DecidableEq

/-- Error message thrown when microphone permission is denied. -/
def micPermissionDeniedMsg : String :=
  "Microphone permission denied. Please allow microphone access and try again."

/-- Error message thrown when no microphone device exists. -/
def micNotFoundMsg : String :=
  "No microphone found. Please connect a microphone and try again."

/-- Error message thrown by `setupSystemAudioStream` when no source id is given. -/
def sourceRequiredMsg : String :=
  "Please select a window or screen to record audio from"

/-- Error message thrown when the electron bridge is missing. -/
def sysUnavailableMsg : String :=
  "System audio capture not available in this environment"

/-- Error message thrown when the bridge returns something that is not a MediaStream. -/
def invalidStreamMsg : String :=
  "Invalid stream returned from system audio capture"

/-- Error message thrown when the returned stream carries zero audio tracks. -/
def noAudioTracksMsg : String :=
  "No audio tracks available from the selected source"

/-- Catch-all message used when a caught error carries an empty message. -/
def sysCatchAllMsg : String :=
  "Failed to capture system audio"

/-- Error message used by `stopRecording` when no recorder exists. -/
def noActiveRecordingMsg : String :=
  "No recording in progress"

/-- Dead-branch message for the combined-stream sanity check in `startRecording`. -/
def failedSetupStreamMsg : String :=
  "Failed to setup audio stream"

/-- Outcome of the platform getUserMedia call for the microphone: either a live
stream or a DOMException carrying a name and a message. -/
inductive MicPlatformResult
  | ok
  | err (name : String) (msg : String)
  deriving DecidableEq

/-- Embedding of `setupMicrophoneStream`: maps the platform outcome to either a
stream (unit here; the caller allocates the handle) or the mapped error message. -/
def setupMicrophoneStream (res : MicPlatformResult) : Except String Unit :=
  match res with
  | MicPlatformResult.ok => Except.ok ()
  | MicPlatformResult.err name msg =>
    if name = "NotAllowedError" || name = "PermissionDeniedError" then
      Except.error micPermissionDeniedMsg
    else if name = "NotFoundError" then
      Except.error micNotFoundMsg
    else
      Except.error ("Failed to access microphone: " ++ msg)

/-- Outcome of `electronAPI.getDesktopStream`: a thrown error, a non-stream
value, or a MediaStream carrying some number of audio tracks. -/
inductive DesktopStreamResult
  | failure (msg : String)
  | notAStream
  | stream (audioTrackCount : Nat)
  deriving DecidableEq

/-- Embedding of `setupSystemAudioStream`.  Returns the audio-track count of the
accepted stream on success.  The precondition check on the source id happens
before any platform interaction; the try/catch re-wraps any inner error with
`msg or else catch-all`, preserving non-empty messages unchanged. -/
def setupSystemAudioStream (sourceId : Option String) (apiAvailable : Bool)
    (res : DesktopStreamResult) : Except String Nat :=
  match sourceId with
  | none => Except.error sourceRequiredMsg
  | some _ =>
    if apiAvailable = false then
      Except.error sysUnavailableMsg
    else
      let tried : Except String Nat :=
        match res with
        | DesktopStreamResult.failure msg => Except.error msg
        | DesktopStreamResult.notAStream => Except.error invalidStreamMsg
        | DesktopStreamResult.stream n =>
          if n = 0 then Except.error noAudioTracksMsg else Except.ok n
      match tried with
      | Except.ok n => Except.ok n
      | Except.error msg =>
        Except.error (if msg = "" then sysCatchAllMsg else msg)

/-- Embedding of `calculateAverageVolume`: sums the byte buffer with a running
accumulator (as the source loop does), divides by length and by 255, and
scales to percent.  Byte values live in 0..255. -/
def calculateAverageVolume (dataArray : List Nat) : ℚ :=
  ((dataArray.foldl (fun acc v => acc + v) 0 : Nat) : ℚ)
    / (dataArray.length : ℚ) / 255 * 100

/-- State of the RecordRTC encoder as reported by `getState()`. -/
inductive RecorderState
  | recording
  | paused
  | stopped
  deriving DecidableEq

/-- A RecordRTC encoder handle: platform identity plus its state. -/
structure Recorder where
  id : Nat
  state : RecorderState
  deriving DecidableEq

/-- Which endpoint a MediaStream handle came from. -/
inductive StreamOrigin
  | mic
  | system
  | dest
  deriving DecidableEq

/-- Kinds of WebAudio nodes the service creates. -/
inductive NodeKind
  | streamSource
  | analyserNode
  | gainNode
  | destNode
  deriving DecidableEq

/-- Platform effects performed by the service, recorded as a trace. -/
inductive RecEvent
  | allocStream (id : Nat) (origin : StreamOrigin)
  | stopTracks (id : Nat)
  | allocNode (id : Nat) (kind : NodeKind)
  | disconnectNode (id : Nat)
  | allocRecorder (id : Nat)
  | destroyRecorder (id : Nat)
  | scheduleTick (id : Nat)
  | cancelTick (id : Nat)
  deriving DecidableEq

/-- The fields of `AudioRecordingService`, one component per instance field.
`nextId` is a fresh-handle supply standing for platform object identity. -/
structure SessionState where
  microphoneStream : Option Nat
  systemAudioStream : Option Nat
  combinedStream : Option Nat
  recorder : Option Recorder
  microphoneAnalyser : Option Nat
  systemAnalyser : Option Nat
  microphoneGain : Option Nat
  systemGain : Option Nat
  destination : Option Nat
  animationFrameId : Option Nat
  startTime : Int
  pausedDuration : Int
  nextId : Nat
  deriving DecidableEq

/-- The freshly constructed service: every reference null, counters zero. -/
def initState : SessionState :=
  { microphoneStream := none
    systemAudioStream := none
    combinedStream := none
    recorder := none
    microphoneAnalyser := none
    systemAnalyser := none
    microphoneGain := none
    systemGain := none
    destination := none
    animationFrameId := none
    startTime := 0
    pausedDuration := 0
    nextId := 0 }

/-- State after `cleanup()`: every guarded field is nulled.  Note the source
never touches `destination`, `startTime`, `pausedDuration`; neither does this. -/
def cleanupState (s : SessionState) : SessionState :=
  { s with
    animationFrameId := none
    microphoneStream := none
    systemAudioStream := none
    combinedStream := none
    microphoneGain := none
    systemGain := none
    microphoneAnalyser := none
    systemAnalyser := none
    recorder := none }

/-- Platform effects of `cleanup()`, in source order: cancel the animation
frame, stop the tracks of each non-null stream (microphone, system, combined),
disconnect each non-null gain and analyser node, destroy the recorder. -/
def cleanupEvents (s : SessionState) : List RecEvent :=
  (match s.animationFrameId with
   | some id => [RecEvent.cancelTick id]
   | none => [])
  ++ (match s.microphoneStream with
      | some id => [RecEvent.stopTracks id]
      | none => [])
  ++ (match s.systemAudioStream with
      | some id => [RecEvent.stopTracks id]
      | none => [])
  ++ (match s.combinedStream with
      | some id => [RecEvent.stopTracks id]
      | none => [])
  ++ (match s.microphoneGain with
      | some id => [RecEvent.disconnectNode id]
      | none => [])
  ++ (match s.systemGain with
      | some id => [RecEvent.disconnectNode id]
      | none => [])
  ++ (match s.microphoneAnalyser with
      | some id => [RecEvent.disconnectNode id]
      | none => [])
  ++ (match s.systemAnalyser with
      | some id => [RecEvent.disconnectNode id]
      | none => [])
  ++ (match s.recorder with
      | some r => [RecEvent.destroyRecorder r.id]
      | none => [])

/-- Embedding of `cleanup()`: resulting state plus emitted platform effects. -/
def cleanup (s : SessionState) : SessionState × List RecEvent :=
  (cleanupState s, cleanupEvents s)

/-- Embedding of `setupAudioAnalysers`: creates a media-stream source node, an
analyser and a gain node (in source order), wires them, and stores the gain and
analyser under the given role, overwriting any previous pair. -/
def setupAudioAnalysers (s : SessionState) (isMicrophone : Bool) :
    SessionState × List RecEvent :=
  let sourceId := s.nextId
  let analyserId := s.nextId + 1
  let gainId := s.nextId + 2
  let evs := [RecEvent.allocNode sourceId NodeKind.streamSource,
              RecEvent.allocNode analyserId NodeKind.analyserNode,
              RecEvent.allocNode gainId NodeKind.gainNode]
  if isMicrophone then
    ({ s with nextId := s.nextId + 3,
              microphoneGain := some gainId,
              microphoneAnalyser := some analyserId }, evs)
  else
    ({ s with nextId := s.nextId + 3,
              systemGain := some gainId,
              systemAnalyser := some analyserId }, evs)

/-- Whether `startRecording` acquires a microphone stream for this source. -/
def needsMicrophone : AudioSource → Bool
  | AudioSource.microphone => true
  | AudioSource.both => true
  | AudioSource.system => false

/-- Whether `startRecording` acquires a system stream for this source. -/
def needsSystem : AudioSource → Bool
  | AudioSource.system => true
  | AudioSource.both => true
  | AudioSource.microphone => false

/-- Environment of a single `startRecording` call: the clock reading and the
outcome of each platform interaction the call may perform. -/
structure StartEnv where
  now : Int
  micResult : MicPlatformResult
  apiAvailable : Bool
  desktopResult : DesktopStreamResult
  encoderError : Option String
  deriving DecidableEq

/-- The body of the `try` block of `startRecording`: record the start
timestamp, reset the pause accumulator, acquire the microphone and/or system
stream (in that order, each followed by its analyser chain), compute the
recordable stream (a fresh merge destination in `both` mode, else the single
acquired stream), then create the encoder and schedule the monitoring tick.
Returns the state reached, the platform effects emitted, and the outcome. -/
def startAttempt (s0 : SessionState) (audioSource : AudioSource)
    (systemSourceId : Option String) (env : StartEnv) :
    SessionState × List RecEvent × Except String Unit :=
  let sInit := { s0 with startTime := env.now, pausedDuration := 0 }
  match (if needsMicrophone audioSource then setupMicrophoneStream env.micResult
         else Except.ok ()) with
  | Except.error e => (sInit, [], Except.error e)
  | Except.ok _ =>
    let micDone :=
      if needsMicrophone audioSource then
        let streamId := sInit.nextId
        let sA := { sInit with microphoneStream := some streamId,
                               nextId := sInit.nextId + 1 }
        ((setupAudioAnalysers sA true).1,
         RecEvent.allocStream streamId StreamOrigin.mic ::
           (setupAudioAnalysers sA true).2)
      else (sInit, ([] : List RecEvent))
    let s1 := micDone.1
    let evs1 := micDone.2
    match (if needsSystem audioSource then
             (setupSystemAudioStream systemSourceId env.apiAvailable
               env.desktopResult).map (fun _ => ())
           else Except.ok ()) with
    | Except.error e => (s1, evs1, Except.error e)
    | Except.ok _ =>
      let sysDone :=
        if needsSystem audioSource then
          let streamId := s1.nextId
          let sA := { s1 with systemAudioStream := some streamId,
                              nextId := s1.nextId + 1 }
          ((setupAudioAnalysers sA false).1,
           RecEvent.allocStream streamId StreamOrigin.system ::
             (setupAudioAnalysers sA false).2)
        else (s1, ([] : List RecEvent))
      let s2 := sysDone.1
      let evs2 := sysDone.2
      let mergeDone :=
        match audioSource with
        | AudioSource.both =>
          let destId := s2.nextId
          let destStreamId := s2.nextId + 1
          (({ s2 with destination := some destId, nextId := s2.nextId + 2 } :
              SessionState),
           [RecEvent.allocNode destId NodeKind.destNode,
            RecEvent.allocStream destStreamId StreamOrigin.dest],
           some destStreamId)
        | AudioSource.microphone => (s2, ([] : List RecEvent), s2.microphoneStream)
        | AudioSource.system => (s2, ([] : List RecEvent), s2.systemAudioStream)
      let s3 := { mergeDone.1 with combinedStream := mergeDone.2.2 }
      let evs3 := mergeDone.2.1
      match mergeDone.2.2 with
      | none => (s3, evs1 ++ evs2 ++ evs3, Except.error failedSetupStreamMsg)
      | some _ =>
        match env.encoderError with
        | some e => (s3, evs1 ++ evs2 ++ evs3, Except.error e)
        | none =>
          let recId := s3.nextId
          let s4 := { s3 with
            recorder := some { id := recId, state := RecorderState.recording },
            nextId := s3.nextId + 1 }
          let tickId := s4.nextId
          let s5 := { s4 with animationFrameId := some tickId,
                              nextId := s4.nextId + 1 }
          (s5, evs1 ++ evs2 ++ evs3 ++
               [RecEvent.allocRecorder recId, RecEvent.scheduleTick tickId],
           Except.ok ())

/-- Embedding of `startRecording`: run the try-block; on any failure run
`cleanup()` and re-surface the same error.  `microphoneId` is threaded for
interface fidelity; the platform outcome it selects lives in `env`. -/
def startRecording (s0 : SessionState) (audioSource : AudioSource)
    (microphoneId : Option String) (systemSourceId : Option String)
    (env : StartEnv) : SessionState × List RecEvent × Except String Unit :=
  let _ := microphoneId
  let r := startAttempt s0 audioSource systemSourceId env
  match r.2.2 with
  | Except.error e =>
    (cleanupState r.1, r.2.1 ++ cleanupEvents r.1, Except.error e)
  | Except.ok _ => r

/-- Embedding of `pauseRecording`: only when a recorder exists and reports
state `recording`, pause it and add the elapsed segment to the accumulator. -/
def pauseRecording (s : SessionState) (now : Int) : SessionState :=
  match s.recorder with
  | some r =>
    if r.state = RecorderState.recording then
      { s with recorder := some { r with state := RecorderState.paused },
               pausedDuration := s.pausedDuration + (now - s.startTime) }
    else s
  | none => s

/-- Embedding of `resumeRecording`: only when a recorder exists and reports
state `paused`, reset the start timestamp to now and resume it. -/
def resumeRecording (s : SessionState) (now : Int) : SessionState :=
  match s.recorder with
  | some r =>
    if r.state = RecorderState.paused then
      { s with startTime := now,
               recorder := some { r with state := RecorderState.recording } }
    else s
  | none => s

/-- Embedding of `stopRecording`: reject with `NoActiveRecording` when no
recorder exists (touching nothing), otherwise finalize and run `cleanup()`. -/
def stopRecording (s : SessionState) :
    SessionState × List RecEvent × Except String Unit :=
  match s.recorder with
  | none => (s, [], Except.error noActiveRecordingMsg)
  | some _ => (cleanupState s, cleanupEvents s, Except.ok ())

/-- Embedding of `getCurrentDuration`: 0 while the start timestamp is unset
(falsy), else `now - startTime + pausedDuration`.  A pure query: it takes the
state and returns a number, mutating nothing. -/
def getCurrentDuration (s : SessionState) (now : Int) : Int :=
  if s.startTime = 0 then 0 else now - s.startTime + s.pausedDuration

/-- Embedding of `getRecordingState`: the recorder state string, or inactive. -/
def getRecordingState (s : SessionState) : String :=
  match s.recorder with
  | some r =>
    match r.state with
    | RecorderState.recording => "recording"
    | RecorderState.paused => "paused"
    | RecorderState.stopped => "stopped"
  | none => "inactive"

/-- One externally invocable session operation, with its clock/environment. -/
inductive SessionOp
  | start (src : AudioSource) (micId : Option String) (sysId : Option String)
      (env : StartEnv)
  | pause (now : Int)
  | resume (now : Int)
  | stop
  deriving DecidableEq

/-- Apply one operation, keeping the new state and the emitted effects. -/
def stepOp (s : SessionState) : SessionOp → SessionState × List RecEvent
  | SessionOp.start src micId sysId env =>
    ((startRecording s src micId sysId env).1,
     (startRecording s src micId sysId env).2.1)
  | SessionOp.pause now => (pauseRecording s now, [])
  | SessionOp.resume now => (resumeRecording s now, [])
  | SessionOp.stop => ((stopRecording s).1, (stopRecording s).2.1)

/-- Run a list of operations from a state, concatenating all effects. -/
def runOps (s : SessionState) : List SessionOp → SessionState × List RecEvent
  | [] => (s, [])
  | op :: rest =>
    ((runOps (stepOp s op).1 rest).1,
     (stepOp s op).2 ++ (runOps (stepOp s op).1 rest).2)

/-- Handles of capture streams (microphone or system endpoint) allocated in a
trace; the merge destination's output stream is not a per-endpoint capture. -/
def capturedStreamIds (evs : List RecEvent) : List Nat :=
  evs.filterMap fun e =>
    match e with
    | RecEvent.allocStream id StreamOrigin.mic => some id
    | RecEvent.allocStream id StreamOrigin.system => some id
    | _ => none

/-- Handles of gain and analyser nodes allocated in a trace. -/
def trackedNodeIds (evs : List RecEvent) : List Nat :=
  evs.filterMap fun e =>
    match e with
    | RecEvent.allocNode id NodeKind.gainNode => some id
    | RecEvent.allocNode id NodeKind.analyserNode => some id
    | _ => none

/-- Effective stream releases in a trace.  `MediaStreamTrack.stop()` on an
already-ended track is a platform no-op, so only the first `stopTracks` per
handle is an actual release; later ones are absorbed. -/
def effectiveStops : List RecEvent → List Nat → List Nat
  | [], _ => []
  | RecEvent.stopTracks id :: rest, seen =>
    if id ∈ seen then effectiveStops rest seen
    else id :: effectiveStops rest (id :: seen)
  | _ :: rest, seen => effectiveStops rest seen

/-- How many effective releases a stream handle receives in a trace. -/
def effectiveStopCount (evs : List RecEvent) (id : Nat) : Nat :=
  (effectiveStops evs []).count id

/-- How many times a node handle is disconnected in a trace. -/
def disconnectCount (evs : List RecEvent) (id : Nat) : Nat :=
  evs.countP fun e =>
    match e with
    | RecEvent.disconnectNode j => j = id
    | _ => false

/-- Boolean check: every capture stream allocated in the trace is effectively
released exactly once, and every gain/analyser node is disconnected exactly
once. -/
def releasedOnceCheck (evs : List RecEvent) : Bool :=
  (capturedStreamIds evs).all (fun id => effectiveStopCount evs id = 1) &&
  (trackedNodeIds evs).all (fun id => disconnectCount evs id = 1)

/-- Boolean check that every resource reference the cleanup routine guards is
null: streams, gain/analyser nodes, recorder, scheduled tick. -/
def cleanedCheck (s : SessionState) : Bool :=
  s.microphoneStream.isNone && s.systemAudioStream.isNone &&
  s.combinedStream.isNone && s.microphoneGain.isNone && s.systemGain.isNone &&
  s.microphoneAnalyser.isNone && s.systemAnalyser.isNone &&
  s.recorder.isNone && s.animationFrameId.isNone

/-- The first failure `startRecording` encounters, computed step by step in the
order the specification prescribes: microphone acquisition, then system-source
acquisition, then encoder creation; `none` when every step succeeds. -/
def firstStartFailure (audioSource : AudioSource)
    (systemSourceId : Option String) (env : StartEnv) : Option String :=
  match (if needsMicrophone audioSource then setupMicrophoneStream env.micResult
         else Except.ok ()) with
  | Except.error e => some e
  | Except.ok _ =>
    match (if needsSystem audioSource then
             (setupSystemAudioStream systemSourceId env.apiAvailable
               env.desktopResult).map (fun _ => ())
           else Except.ok ()) with
    | Except.error e => some e
    | Except.ok _ => env.encoderError

/-- The resource-bearing projection of a state: exactly the fields that
`cleanupEvents` and the pause/resume guards read. -/
def resourceView (s : SessionState) :
    Option Nat × Option Nat × Option Nat × Option Nat × Option Nat ×
    Option Nat × Option Nat × Option Nat × Option Nat × Option Nat :=
  (s.microphoneStream, s.systemAudioStream, s.combinedStream,
   s.microphoneGain, s.systemGain, s.microphoneAnalyser, s.systemAnalyser,
   s.destination, s.animationFrameId, s.recorder.map Recorder.id)

/-- Interpret a pause/resume script entry as an operation. -/
def prOp : Bool × Int → SessionOp
  | (true, t) => SessionOp.pause t
  | (false, t) => SessionOp.resume t

/-- A pause/resume-only operation script. -/
def prOps (l : List (Bool × Int)) : List SessionOp :=
  l.map prOp

/-- Whether an operation is a `startRecording` invocation. -/
def isStartOp : SessionOp → Bool
  | SessionOp.start _ _ _ _ => true
  | _ => false

/-- Whether the clock reading an operation records into `startTime` (the start
timestamp at start, the resume instant at resume) is positive, as every real
`Date.now()` reading is. -/
def opTimePos : SessionOp → Bool
  | SessionOp.start _ _ _ env => decide (0 < env.now)
  | SessionOp.resume t => decide (0 < t)
  | _ => true

/-- An environment in which every platform step succeeds. -/
def envAllOk : StartEnv :=
  { now := 1
    micResult := MicPlatformResult.ok
    apiAvailable := true
    desktopResult := DesktopStreamResult.stream 2
    encoderError := none }

/-- An environment in which the desktop source yields a live stream carrying
zero audio tracks. -/
def envZeroTracks : StartEnv :=
  { now := 1
    micResult := MicPlatformResult.ok
    apiAvailable := true
    desktopResult := DesktopStreamResult.stream 0
    encoderError := none }

/-- An environment in which microphone permission is denied. -/
def envMicDenied : StartEnv :=
  { now := 1
    micResult := MicPlatformResult.err ("NotAllowedError") ("Permission denied")
    apiAvailable := true
    desktopResult := DesktopStreamResult.stream 2
    encoderError := none }

/-- A session that starts twice, with no intervening stop, and then stops. -/
def doubleStartOps : List SessionOp :=
  [SessionOp.start AudioSource.microphone none none envAllOk,
   SessionOp.start AudioSource.microphone none none envAllOk,
   SessionOp.stop]

/-- A successful both-sources session followed by a stop. -/
def bothStopOps : List SessionOp :=
  [SessionOp.start AudioSource.both (some ("default")) (some ("win1")) envAllOk,
   SessionOp.stop]

/-- The state of a microphone session immediately after a successful start. -/
def startedState : SessionState :=
  (startRecording initState AudioSource.microphone none none envAllOk).1

/-! ## Helper lemmas -/

/-- Cleanup always leaves every guarded reference null. -/
theorem cleanedCheck_cleanupState (s : SessionState) :
    cleanedCheck (cleanupState s) = true := by
  simp [cleanedCheck, cleanupState]

/-- Summing with a running accumulator equals the accumulator plus the sum. -/
theorem foldl_add_eq_sum (l : List Nat) (a : Nat) :
    l.foldl (fun acc v => acc + v) a = a + l.sum := by
  induction l generalizing a with
  | nil => simp
  | cons x xs ih => simp [List.foldl, ih, Nat.add_assoc]

/-- Running over a concatenation splits state and events. -/
theorem runOps_append (a b : List SessionOp) (s : SessionState) :
    runOps s (a ++ b) =
      ((runOps (runOps s a).1 b).1,
       (runOps s a).2 ++ (runOps (runOps s a).1 b).2) := by
  induction a generalizing s with
  | nil => simp [runOps]
  | cons op rest ih => simp [runOps, ih, List.append_assoc]

/-- A pause or resume step emits no platform effects and leaves every
resource reference (and the recorder handle identity) unchanged. -/
theorem pr_step_view (p : Bool × Int) (s : SessionState) :
    (stepOp s (prOp p)).2 = [] ∧
    resourceView (stepOp s (prOp p)).1 = resourceView s := by
  obtain ⟨b, t⟩ := p
  cases b <;> rcases hr : s.recorder with _ | r <;>
    simp [prOp, stepOp, pauseRecording, resumeRecording, resourceView, hr]
  · cases hst : r.state <;> simp [hst] <;> exact ⟨r, hr, rfl⟩
  · cases hst : r.state <;> simp [hst] <;> exact ⟨r, hr, rfl⟩

/-- A pause/resume-only script emits no platform effects and preserves every
resource reference. -/
theorem pr_run_view (l : List (Bool × Int)) (s : SessionState) :
    (runOps s (prOps l)).2 = [] ∧
    resourceView (runOps s (prOps l)).1 = resourceView s := by
  induction l generalizing s with
  | nil => simp [prOps, runOps]
  | cons p rest ih =>
    obtain ⟨h1, h2⟩ := pr_step_view p s
    obtain ⟨h3, h4⟩ := ih (stepOp s (prOp p)).1
    refine ⟨?_, ?_⟩
    · simp [prOps, runOps, h1, List.map]
      simpa [prOps] using h3
    · simp only [prOps, List.map, runOps]
      rw [show (rest.map prOp) = prOps rest from rfl] at *
      rw [h4, h2]

/-- The cleanup effect list depends only on the resource view of the state. -/
theorem cleanupEvents_congr (s t : SessionState)
    (h : resourceView s = resourceView t) : cleanupEvents s = cleanupEvents t := by
  simp only [resourceView, Prod.mk.injEq] at h
  obtain ⟨h1, h2, h3, h4, h5, h6, h7, h8, h9, h10⟩ := h
  rcases hs : s.recorder with _ | r <;> rcases ht : t.recorder with _ | q <;>
    rw [hs, ht] at h10 <;> simp at h10 <;>
    simp [cleanupEvents, h1, h2, h3, h4, h5, h6, h7, h8, h9, hs, ht, h10]

/-- The full effect trace of one session — a start, any pause/resume script,
then a stop — is the start trace followed by the cleanup trace of the state
the start produced (empty when the start failed, because the start already
cleaned up and left no recorder). -/
theorem session_events (src : AudioSource) (micId sysId : Option String)
    (env : StartEnv) (prs : List (Bool × Int)) :
    (runOps initState
      (SessionOp.start src micId sysId env :: (prOps prs ++ [SessionOp.stop]))).2 =
    (startRecording initState src micId sysId env).2.1 ++
    (match (startRecording initState src micId sysId env).1.recorder with
     | none => []
     | some _ =>
       cleanupEvents (startRecording initState src micId sysId env).1) := by
  have hstep : stepOp initState (SessionOp.start src micId sysId env) =
      ((startRecording initState src micId sysId env).1,
       (startRecording initState src micId sysId env).2.1) := rfl
  obtain ⟨hpre, hview⟩ :=
    pr_run_view prs (startRecording initState src micId sysId env).1
  simp only [runOps, hstep, runOps_append, hpre, List.nil_append]
  have h10 : (runOps (startRecording initState src micId sysId env).1
      (prOps prs)).1.recorder.map Recorder.id =
      (startRecording initState src micId sysId env).1.recorder.map Recorder.id := by
    simp only [resourceView, Prod.mk.injEq] at hview
    exact hview.2.2.2.2.2.2.2.2.2
  rcases hrec : (startRecording initState src micId sysId env).1.recorder
    with _ | r
  · have hmid : (runOps (startRecording initState src micId sysId env).1
        (prOps prs)).1.recorder = none := by
      rw [hrec] at h10
      simpa using h10
    simp [runOps, stepOp, stopRecording, hmid]
  · have hmid : ∃ q, (runOps (startRecording initState src micId sysId env).1
        (prOps prs)).1.recorder = some q := by
      rw [hrec] at h10
      rcases hm : (runOps (startRecording initState src micId sysId env).1
        (prOps prs)).1.recorder with _ | q
      · rw [hm] at h10
        simp at h10
      · exact ⟨q, rfl⟩
    obtain ⟨q, hq⟩ := hmid
    have hce := cleanupEvents_congr _ _ hview
    simp [runOps, stepOp, stopRecording, hq, hce]

/-- The outcome of the start try-block is exactly the first failing step's
error (microphone, then system source, then encoder), or success. -/
theorem startAttempt_outcome (s0 : SessionState) (src : AudioSource)
    (sysId : Option String) (env : StartEnv) :
    (startAttempt s0 src sysId env).2.2 =
      (match firstStartFailure src sysId env with
       | some e => Except.error e
       | none => Except.ok ()) := by
  cases src <;>
    rcases hm : setupMicrophoneStream env.micResult with em | um <;>
    rcases hs : setupSystemAudioStream sysId env.apiAvailable env.desktopResult
      with es | ns <;>
    rcases he : env.encoderError with _ | e <;>
    simp [startAttempt, firstStartFailure, needsMicrophone, needsSystem,
      hm, hs, he, setupAudioAnalysers, Except.map]

/-! ## C1 -/

/-- C1: whenever any internal step of `startRecording` fails (microphone
acquisition, system-source acquisition, stream merge, or encoder creation),
the call returns exactly the first failing step's error — unchanged, with no
swallowing and no retry — and the state it leaves behind has every guarded
resource reference cleaned up. -/
theorem c1_start_failure_propagation (s0 : SessionState) (src : AudioSource)
    (micId sysId : Option String) (env : StartEnv) :
    (startRecording s0 src micId sysId env).2.2 =
      (match firstStartFailure src sysId env with
       | some e => Except.error e
       | none => Except.ok ()) ∧
    (∀ e, firstStartFailure src sysId env = some e →
      cleanedCheck (startRecording s0 src micId sysId env).1 = true) := by
  have hout := startAttempt_outcome s0 src sysId env
  constructor
  · rcases h : (startAttempt s0 src sysId env).2.2 with e | u
    · rw [h] at hout
      simpa [startRecording, h] using hout
    · rw [h] at hout
      simpa [startRecording, h] using hout
  · intro e he
    have h2 : (startAttempt s0 src sysId env).2.2 = Except.error e := by
      rw [hout, he]
    simp [startRecording, h2, cleanedCheck_cleanupState]

/-- Witness for C1: denied microphone permission surfaces that exact error and
leaves a fully cleaned state. -/
theorem c1_witness :
    firstStartFailure AudioSource.microphone none envMicDenied =
      some micPermissionDeniedMsg ∧
    (startRecording initState AudioSource.microphone none none
      envMicDenied).2.2 = Except.error micPermissionDeniedMsg ∧
    cleanedCheck (startRecording initState AudioSource.microphone none none
      envMicDenied).1 = true := by
  obtain ⟨ha, hb⟩ := c1_start_failure_propagation initState AudioSource.microphone
    none none envMicDenied
  refine ⟨by decide, ?_, hb micPermissionDeniedMsg (by decide)⟩
  rw [ha]
  rfl

/-! ## C2 -/

/-- C2 (amended): in a single-session run — one `startRecording` from a fresh
service, any pause/resume script, then `stopRecording` — every capture stream
and every gain/analyser node allocated during the start is (effectively)
released exactly once, on stop or already during a failed start.  The
unamended claim also asserted the session cannot start twice without a stop;
the code does not enforce that (see the counterexample). -/
theorem c2_single_session_released_once (src : AudioSource)
    (micId sysId : Option String) (env : StartEnv) (prs : List (Bool × Int)) :
    releasedOnceCheck (runOps initState
      (SessionOp.start src micId sysId env :: (prOps prs ++ [SessionOp.stop]))).2
      = true := by
  rw [session_events]
  cases src
  case microphone =>
    rcases hm : setupMicrophoneStream env.micResult with em | um
    · simp [startRecording, startAttempt, needsMicrophone, needsSystem, hm,
        setupAudioAnalysers, cleanupState, cleanupEvents, initState]
      decide
    · rcases he : env.encoderError with _ | e <;>
        simp [startRecording, startAttempt, needsMicrophone, needsSystem, hm, he,
          setupAudioAnalysers, cleanupState, cleanupEvents, initState] <;>
        decide
  case system =>
    rcases hs : setupSystemAudioStream sysId env.apiAvailable env.desktopResult
      with es | ns
    · simp [startRecording, startAttempt, needsMicrophone, needsSystem, hs,
        setupAudioAnalysers, cleanupState, cleanupEvents, initState, Except.map]
      decide
    · rcases he : env.encoderError with _ | e <;>
        simp [startRecording, startAttempt, needsMicrophone, needsSystem, hs, he,
          setupAudioAnalysers, cleanupState, cleanupEvents, initState,
          Except.map] <;>
        decide
  case both =>
    rcases hm : setupMicrophoneStream env.micResult with em | um
    · simp [startRecording, startAttempt, needsMicrophone, needsSystem, hm,
        setupAudioAnalysers, cleanupState, cleanupEvents, initState]
      decide
    · rcases hs : setupSystemAudioStream sysId env.apiAvailable env.desktopResult
        with es | ns
      · simp [startRecording, startAttempt, needsMicrophone, needsSystem, hm, hs,
          setupAudioAnalysers, cleanupState, cleanupEvents, initState, Except.map]
        decide
      · rcases he : env.encoderError with _ | e <;>
          simp [startRecording, startAttempt, needsMicrophone, needsSystem,
            hm, hs, he, setupAudioAnalysers, cleanupState, cleanupEvents,
            initState, Except.map] <;>
          decide

/-- Counterexample to C2 as stated: the code permits a second `startRecording`
with no intervening stop (it returns success), and in the resulting run the
microphone capture stream allocated by the first start (handle 0) is never
released — the release-exactly-once property fails over this operation
sequence. -/
theorem c2_counterexample :
    releasedOnceCheck (runOps initState doubleStartOps).2 = false ∧
    RecEvent.allocStream 0 StreamOrigin.mic ∈ (runOps initState doubleStartOps).2 ∧
    effectiveStopCount (runOps initState doubleStartOps).2 0 = 0 ∧
    (startRecording (startRecording initState AudioSource.microphone none none
      envAllOk).1 AudioSource.microphone none none envAllOk).2.2 =
      Except.ok () := by
  refine ⟨by decide, by decide, by decide, rfl⟩

/-! ## C3 -/

/-- C3 (amended): cleanup — hence `stopRecording` and any failed start — nulls
every owned reference except the mix destination node, which it leaves
untouched; and in the cited zero-track `both` scenario the start fails with
`NoAudioTracks` and leaves no stream, node, or destination allocated (the
destination was never created before the failure). -/
theorem c3_cleanup_scope :
    (∀ s : SessionState,
      cleanedCheck (cleanup s).1 = true ∧ (cleanup s).1.destination = s.destination) ∧
    (startRecording initState AudioSource.both (some ("default")) (some ("win1"))
      envZeroTracks).2.2 = Except.error noAudioTracksMsg ∧
    cleanedCheck (startRecording initState AudioSource.both (some ("default"))
      (some ("win1")) envZeroTracks).1 = true ∧
    (startRecording initState AudioSource.both (some ("default")) (some ("win1"))
      envZeroTracks).1.destination = none := by
  refine ⟨fun s => ⟨cleanedCheck_cleanupState s, rfl⟩, rfl, by decide, by decide⟩

/-- Counterexample to C3 as stated: after a successful `both`-mode session is
stopped, the mix destination reference is still set (handle 8) — cleanup never
disconnects or clears `destination`, so the session is not fully reset. -/
theorem c3_counterexample :
    ((runOps initState bothStopOps).1).destination = some 8 ∧
    ¬ ((runOps initState bothStopOps).1).destination = none := by
  refine ⟨by decide, by decide⟩

/-! ## C4 -/

/-- Operations that are not a start leave a never-started service, one with no
recorder and a zero start timestamp, completely unchanged. -/
theorem noStart_run (ops : List SessionOp) :
    ∀ s : SessionState, (∀ op ∈ ops, isStartOp op = false) → s.recorder = none →
    runOps s ops = (s, []) := by
  induction ops with
  | nil => intro s _ _; rfl
  | cons op rest ih =>
    intro s hall hrec
    have hop := hall op (by simp)
    have hstep : stepOp s op = (s, []) := by
      cases op with
      | start src micId sysId env => simp [isStartOp] at hop
      | pause t => simp [stepOp, pauseRecording, hrec]
      | resume t => simp [stepOp, resumeRecording, hrec]
      | stop => simp [stepOp, stopRecording, hrec]
    have hrest := ih s (fun o ho => hall o (by simp [ho])) hrec
    simp [runOps, hstep, hrest]

/-- A start call records its clock reading as the start timestamp, whatever
happens afterwards (cleanup does not reset the timestamp). -/
theorem startRecording_startTime (s0 : SessionState) (src : AudioSource)
    (micId sysId : Option String) (env : StartEnv) :
    (startRecording s0 src micId sysId env).1.startTime = env.now := by
  have h : (startAttempt s0 src sysId env).1.startTime = env.now := by
    cases src <;>
      rcases hm : setupMicrophoneStream env.micResult with em | um <;>
      rcases hs : setupSystemAudioStream sysId env.apiAvailable env.desktopResult
        with es | ns <;>
      rcases he : env.encoderError with _ | e <;>
      simp [startAttempt, needsMicrophone, needsSystem, hm, hs, he,
        setupAudioAnalysers, Except.map]
  rcases hr : (startAttempt s0 src sysId env).2.2 with e | u <;>
    simp [startRecording, hr, cleanupState, h]

/-- Pausing never changes the start timestamp. -/
theorem pauseRecording_startTime (s : SessionState) (t : Int) :
    (pauseRecording s t).startTime = s.startTime := by
  rcases hr : s.recorder with _ | r
  · simp [pauseRecording, hr]
  · cases hst : r.state <;> simp [pauseRecording, hr, hst]

/-- Resuming either keeps the start timestamp or resets it to the call time. -/
theorem resumeRecording_startTime (s : SessionState) (t : Int) :
    (resumeRecording s t).startTime = s.startTime ∨
    (resumeRecording s t).startTime = t := by
  rcases hr : s.recorder with _ | r
  · exact Or.inl (by simp [resumeRecording, hr])
  · cases hst : r.state <;> simp [resumeRecording, hr, hst]

/-- Stopping never changes the start timestamp. -/
theorem stopRecording_startTime (s : SessionState) :
    ((stopRecording s).1).startTime = s.startTime := by
  rcases hr : s.recorder with _ | r <;> simp [stopRecording, hr, cleanupState]

/-- Once the start timestamp is positive it stays positive under any script
whose clock readings are positive. -/
theorem pos_startTime_preserved (ops : List SessionOp) :
    ∀ s : SessionState, (∀ op ∈ ops, opTimePos op = true) → 0 < s.startTime →
    0 < (runOps s ops).1.startTime := by
  induction ops with
  | nil => intro s _ h; exact h
  | cons op rest ih =>
    intro s hall hpos
    have hop := hall op (by simp)
    have hnext : 0 < (stepOp s op).1.startTime := by
      cases op with
      | start src micId sysId env =>
        have : 0 < env.now := by simpa [opTimePos] using hop
        simpa [stepOp, startRecording_startTime] using this
      | pause t => simpa [stepOp, pauseRecording_startTime] using hpos
      | resume t =>
        have ht : 0 < t := by simpa [opTimePos] using hop
        rcases resumeRecording_startTime s t with h | h <;>
          simp [stepOp, h, hpos, ht]
      | stop => simpa [stepOp, stopRecording_startTime] using hpos
    have := ih (stepOp s op).1 (fun o ho => hall o (by simp [ho])) hnext
    simpa [runOps] using this

/-- Any script containing a start, run with positive clock readings, ends with
a positive start timestamp. -/
theorem has_start_pos (ops : List SessionOp) :
    ∀ s : SessionState, (∀ op ∈ ops, opTimePos op = true) →
    (∃ op ∈ ops, isStartOp op = true) → 0 < (runOps s ops).1.startTime := by
  induction ops with
  | nil => intro s _ hex; simp at hex
  | cons op rest ih =>
    intro s hall hex
    cases op with
    | start src micId sysId env =>
      have hop := hall (SessionOp.start src micId sysId env) (by simp)
      have hpos : 0 < env.now := by simpa [opTimePos] using hop
      have hnext : 0 < (stepOp s (SessionOp.start src micId sysId env)).1.startTime := by
        simpa [stepOp, startRecording_startTime] using hpos
      have := pos_startTime_preserved rest _
        (fun o ho => hall o (by simp [ho])) hnext
      simpa [runOps] using this
    | pause t =>
      obtain ⟨o, ho, hiso⟩ := hex
      rcases List.mem_cons.mp ho with h | h
      · rw [h] at hiso; simp [isStartOp] at hiso
      · have := ih (stepOp s (SessionOp.pause t)).1
          (fun o ho => hall o (by simp [ho])) ⟨o, h, hiso⟩
        simpa [runOps] using this
    | resume t =>
      obtain ⟨o, ho, hiso⟩ := hex
      rcases List.mem_cons.mp ho with h | h
      · rw [h] at hiso; simp [isStartOp] at hiso
      · have := ih (stepOp s (SessionOp.resume t)).1
          (fun o ho => hall o (by simp [ho])) ⟨o, h, hiso⟩
        simpa [runOps] using this
    | stop =>
      obtain ⟨o, ho, hiso⟩ := hex
      rcases List.mem_cons.mp ho with h | h
      · rw [h] at hiso; simp [isStartOp] at hiso
      · have := ih (stepOp s SessionOp.stop).1
          (fun o ho => hall o (by simp [ho])) ⟨o, h, hiso⟩
        simpa [runOps] using this

/-- C4: `getCurrentDuration` returns 0 on a service that was never started
(and such a run also mutates nothing); whenever the start timestamp is set it
returns `now - startTime + pausedDuration`; and after any script with positive
clock readings that contains a start, the timestamp is set, so the formula
applies — in every state, including paused.  It is a pure query by type: it
reads the state and returns a number. -/
theorem c4_current_duration :
    (∀ (ops : List SessionOp) (now : Int), (∀ op ∈ ops, isStartOp op = false) →
      getCurrentDuration (runOps initState ops).1 now = 0) ∧
    (∀ (s : SessionState) (now : Int), s.startTime ≠ 0 →
      getCurrentDuration s now = now - s.startTime + s.pausedDuration) ∧
    (∀ (ops : List SessionOp) (now : Int),
      (∀ op ∈ ops, opTimePos op = true) → (∃ op ∈ ops, isStartOp op = true) →
      (runOps initState ops).1.startTime ≠ 0 ∧
      getCurrentDuration (runOps initState ops).1 now =
        now - (runOps initState ops).1.startTime +
          (runOps initState ops).1.pausedDuration) := by
  refine ⟨?_, ?_, ?_⟩
  · intro ops now hall
    rw [noStart_run ops initState hall rfl]
    simp [getCurrentDuration, initState]
  · intro s now h
    simp [getCurrentDuration, h]
  · intro ops now hpos hex
    have hp := has_start_pos ops initState hpos hex
    have hne : (runOps initState ops).1.startTime ≠ 0 := hp.ne'
    exact ⟨hne, by simp [getCurrentDuration, hne]⟩

/-- Witness for C4 at concrete runs: a never-started service reports 0; a
started one reports the formula. -/
theorem c4_witness :
    getCurrentDuration (runOps initState [SessionOp.pause 5, SessionOp.stop]).1 9 = 0 ∧
    getCurrentDuration startedState 9 =
      9 - startedState.startTime + startedState.pausedDuration ∧
    (runOps initState
      [SessionOp.start AudioSource.microphone none none envAllOk]).1.startTime ≠ 0 := by
  obtain ⟨h1, h2, h3⟩ := c4_current_duration
  refine ⟨h1 [SessionOp.pause 5, SessionOp.stop] 9 (by decide), ?_, ?_⟩
  · exact h2 startedState 9 (by decide)
  · exact (h3 [SessionOp.start AudioSource.microphone none none envAllOk] 9
      (by decide) ⟨SessionOp.start AudioSource.microphone none none envAllOk,
        by simp, rfl⟩).1

/-! ## C5 -/

/-- C5: `pauseRecording` acts only when the encoder reports `recording` — it
then adds the elapsed segment since the last start/resume timestamp to the
accumulated total and pauses the encoder — and is a silent no-op otherwise;
`resumeRecording` acts only when the encoder reports `paused` — it then resets
the start timestamp to now and resumes the encoder — is a silent no-op
otherwise, and never changes the accumulated total. -/
theorem c5_pause_resume_guards (s : SessionState) (now : Int) :
    (getRecordingState s = "recording" →
      pauseRecording s now =
        { s with
            recorder := s.recorder.map fun r => { r with state := RecorderState.paused },
            pausedDuration := s.pausedDuration + (now - s.startTime) }) ∧
    (getRecordingState s ≠ "recording" → pauseRecording s now = s) ∧
    (getRecordingState s = "paused" →
      resumeRecording s now =
        { s with
            startTime := now,
            recorder := s.recorder.map fun r => { r with state := RecorderState.recording } }) ∧
    (getRecordingState s ≠ "paused" → resumeRecording s now = s) ∧
    (resumeRecording s now).pausedDuration = s.pausedDuration := by
  rcases hr : s.recorder with _ | r
  · simp [getRecordingState, pauseRecording, resumeRecording, hr]
  · cases hst : r.state <;>
      simp [getRecordingState, pauseRecording, resumeRecording, hr, hst]

/-- Witness for C5: on a freshly started session the pause takes effect; on a
fresh service both calls are no-ops. -/
theorem c5_witness :
    pauseRecording startedState 7 =
      { startedState with
          recorder := startedState.recorder.map fun r =>
            { r with state := RecorderState.paused },
          pausedDuration := startedState.pausedDuration + (7 - startedState.startTime) } ∧
    pauseRecording initState 7 = initState ∧
    resumeRecording startedState 7 = startedState := by
  refine ⟨(c5_pause_resume_guards startedState 7).1 (by decide), ?_, ?_⟩
  · exact (c5_pause_resume_guards initState 7).2.1 (by decide)
  · exact (c5_pause_resume_guards startedState 7).2.2.2.1 (by decide)

/-! ## C6 -/

/-- C6: `stopRecording` with no encoder present fails with the
`NoActiveRecording` error and performs no mutation at all — the returned state
is the input state, and no platform effect is emitted. -/
theorem c6_stop_without_recorder (s : SessionState) (h : s.recorder = none) :
    stopRecording s = (s, [], Except.error noActiveRecordingMsg) := by
  simp [stopRecording, h]

/-- Witness for C6: a fresh service (never started) rejects stop untouched. -/
theorem c6_witness :
    initState.recorder = none ∧
    stopRecording initState = (initState, [], Except.error noActiveRecordingMsg) := by
  exact ⟨rfl, c6_stop_without_recorder initState rfl⟩

/-! ## C7 -/

/-- C7: system-source acquisition with no source identifier fails with
`SourceRequired` independently of every platform input (no platform call can
influence it); a live stream with zero audio tracks fails with
`NoAudioTracks`, which differs from the catch-all failure message; and no
zero-track stream is ever returned. -/
theorem c7_system_acquisition_errors :
    (∀ (api api2 : Bool) (res res2 : DesktopStreamResult),
      setupSystemAudioStream none api res = Except.error sourceRequiredMsg ∧
      setupSystemAudioStream none api res = setupSystemAudioStream none api2 res2) ∧
    (∀ sid : String,
      setupSystemAudioStream (some sid) true (DesktopStreamResult.stream 0) =
        Except.error noAudioTracksMsg) ∧
    noAudioTracksMsg ≠ sysCatchAllMsg ∧
    (∀ (sid : String) (api : Bool) (res : DesktopStreamResult) (n : Nat),
      setupSystemAudioStream (some sid) api res = Except.ok n → 0 < n) := by
  refine ⟨fun api api2 res res2 => ⟨rfl, rfl⟩, fun sid => rfl, by decide, ?_⟩
  intro sid api res n h
  cases api <;> rcases res with msg | _ | m <;>
    simp [setupSystemAudioStream] at h
  · rcases m with _ | k <;> simp at h
    omega

/-- Witness for C7: a two-track stream is accepted and indeed has a positive
track count. -/
theorem c7_witness :
    0 < 2 ∧
    setupSystemAudioStream (some ("w")) true (DesktopStreamResult.stream 2) =
      Except.ok 2 := by
  refine ⟨c7_system_acquisition_errors.2.2.2 ("w") true
    (DesktopStreamResult.stream 2) 2 rfl, rfl⟩

/-! ## C8 -/

/-- C8: for every non-empty byte buffer the loudness reduction computes
`(sum / length / 255) * 100`, always in `[0, 100]`; an all-255 buffer yields
exactly 100 and an all-zero buffer exactly 0. -/
theorem c8_loudness :
    (∀ l : List Nat, l ≠ [] → (∀ x ∈ l, x ≤ 255) →
      calculateAverageVolume l = (l.sum : ℚ) / (l.length : ℚ) / 255 * 100 ∧
      0 ≤ calculateAverageVolume l ∧ calculateAverageVolume l ≤ 100) ∧
    (∀ n : Nat, 0 < n →
      calculateAverageVolume (List.replicate n 255) = 100 ∧
      calculateAverageVolume (List.replicate n 0) = 0) := by
  have hform : ∀ l : List Nat,
      calculateAverageVolume l = (l.sum : ℚ) / (l.length : ℚ) / 255 * 100 := by
    intro l
    unfold calculateAverageVolume
    rw [foldl_add_eq_sum]
    simp
  constructor
  · intro l hne hb
    refine ⟨hform l, ?_, ?_⟩
    · rw [hform]
      positivity
    · rw [hform]
      have hlen : 0 < (l.length : ℚ) := by
        exact_mod_cast List.length_pos.mpr hne
      have hsum : (l.sum : ℚ) ≤ (l.length : ℚ) * 255 := by
        have h := List.sum_le_card_nsmul l 255 hb
        rw [smul_eq_mul] at h
        exact_mod_cast h
      rw [div_div]
      have h1 : (l.sum : ℚ) / ((l.length : ℚ) * 255) ≤ 1 := by
        rw [div_le_one (by positivity)]
        exact hsum
      nlinarith [h1]
  · intro n hn
    have hn2 : ((n : ℚ)) ≠ 0 := by
      exact_mod_cast hn.ne'
    constructor
    · rw [hform]
      simp only [List.sum_replicate, List.length_replicate, smul_eq_mul]
      push_cast
      field_simp
    · rw [hform]
      simp [List.sum_replicate]

/-- Witness for C8: concrete buffers hit the bounds and the exact endpoints. -/
theorem c8_witness :
    0 ≤ calculateAverageVolume [128, 64] ∧
    calculateAverageVolume [128, 64] ≤ 100 ∧
    calculateAverageVolume (List.replicate 4 255) = 100 ∧
    calculateAverageVolume (List.replicate 4 0) = 0 := by
  obtain ⟨h1, h2⟩ := c8_loudness
  obtain ⟨-, hb1, hb2⟩ := h1 [128, 64] (by decide) (by decide)
  obtain ⟨hc, hd⟩ := h2 4 (by decide)
  exact ⟨hb1, hb2, hc, hd⟩

/-! ## C9 -/

/-- C9: cleanup is total (never throws), tolerant of a never-started service —
on the fresh state it does nothing and emits nothing — and idempotent: a
second consecutive cleanup returns exactly the state of the first and emits no
platform effect (no double release of any resource). -/
theorem c9_cleanup_idempotent :
    (∀ s : SessionState, cleanup (cleanup s).1 = ((cleanup s).1, [])) ∧
    cleanup initState = (initState, []) := by
  constructor
  · intro s
    cases s
    simp [cleanup, cleanupState, cleanupEvents]
  · rfl

/-! ## C10 -/

/-- C10: while paused, `getCurrentDuration` keeps growing with the clock and
double-counts the segment between the last start/resume and the pause: after
pausing at `p` a session recording since `startTime`, the reported value at
`n1` is `(n1 - p) + 2 * (p - startTime) + priorAccumulated`, strictly
increasing in `n1`, and exceeds the frozen correct value
`priorAccumulated + (p - startTime)` by the whole running term
`n1 - startTime`; only resuming at `rt` resets the timestamp, after which the
report is `(n1 - rt) + accumulated` again. -/
theorem c10_paused_duration_drift (s : SessionState) (r : Recorder)
    (p rt n1 n2 : Int) (hrec : s.recorder = some r)
    (hst : r.state = RecorderState.recording) (h0 : s.startTime ≠ 0) :
    getCurrentDuration (pauseRecording s p) n1 =
      (n1 - p) + 2 * (p - s.startTime) + s.pausedDuration ∧
    (n1 < n2 → getCurrentDuration (pauseRecording s p) n1 <
      getCurrentDuration (pauseRecording s p) n2) ∧
    getCurrentDuration (pauseRecording s p) n1 -
      (s.pausedDuration + (p - s.startTime)) = n1 - s.startTime ∧
    (rt ≠ 0 → getCurrentDuration (resumeRecording (pauseRecording s p) rt) n1 =
      (n1 - rt) + (s.pausedDuration + (p - s.startTime))) := by
  have hpause : pauseRecording s p =
      { s with recorder := some { r with state := RecorderState.paused },
               pausedDuration := s.pausedDuration + (p - s.startTime) } := by
    simp [pauseRecording, hrec, hst]
  refine ⟨?_, ?_, ?_, ?_⟩
  · rw [hpause]
    simp [getCurrentDuration, h0]
    ring
  · intro hlt
    rw [hpause]
    simp [getCurrentDuration, h0]
    omega
  · rw [hpause]
    simp [getCurrentDuration, h0]
  · intro hrt
    rw [hpause]
    simp [resumeRecording, getCurrentDuration, hrt]

/-- Witness for C10 on a freshly started session paused at time 3. -/
theorem c10_witness :
    getCurrentDuration (pauseRecording startedState 3) 5 =
      (5 - 3) + 2 * (3 - startedState.startTime) + startedState.pausedDuration ∧
    getCurrentDuration (pauseRecording startedState 3) 5 <
      getCurrentDuration (pauseRecording startedState 3) 9 ∧
    getCurrentDuration (resumeRecording (pauseRecording startedState 3) 4) 5 =
      (5 - 4) + (startedState.pausedDuration + (3 - startedState.startTime)) := by
  obtain ⟨h1, h2, h3, h4⟩ := c10_paused_duration_drift startedState
    { id := 4, state := RecorderState.recording } 3 4 5 9
    (by decide) rfl (by decide)
  exact ⟨h1, h2 (by decide), h4 (by decide)⟩
